import Mathlib

/-!
Shallow embedding of the SPLPv1 protocol validator.

The repository holds two near-duplicate C source files, each defining a
function `validate_message` over a global `enum State`:

* `src/splpv1.c`        — character classes written as raw byte-range tests;
* `src/unnamed/part_000` — character classes written as 128-entry lookup tables.

Both are embedded below as pure transition functions
`State -> Message -> test_status × State` (the C global `state` becomes the
explicit argument and the second component of the result).

Model of C strings: `msg->text_message` is a null-terminated ASCII string.
We model the text as the `List Nat` of its bytes strictly before the
terminating null; a byte of a C string is never 0, so the end of the list is
exactly the position of the terminator.  `cAt s i` models `text[i]` reads
that stay within the string or hit the terminator: positions at or beyond
`s.length` read 0, the null byte.
-/

set_option maxRecDepth 16384

namespace SPLP

inductive Direction
  | A_TO_B
  | B_TO_A
  deriving DecidableEq

inductive test_status
  | MESSAGE_VALID
  | MESSAGE_INVALID
  deriving DecidableEq

inductive State
  | INIT
  | CONNECTING
  | CONNECTED
  | WAITING_VER
  | WAITING_DATA
  | WAITING_B64_DATA
  | DISCONNECTING
  deriving DecidableEq

structure Message where
  text : List Nat
  direction : Direction

/-- Bytes of an ASCII string literal. -/
def strBytes (s : String) : List Nat := s.data.map Char.toNat

/-- `text[i]`: in-range positions give the byte, the position `s.length`
(and, in this model of a well-formed C string, every later one) gives the
null byte 0. -/
def cAt (s : List Nat) (i : Nat) : Nat := s.getD i 0

/-- `strcmp(s, t) == 0` for null-free byte lists: the strings are equal. -/
def strcmpEq (s t : List Nat) : Prop := s = t

/-- `strncmp(s, t, n) == 0` for null-free byte lists: comparing the first
`n` C characters (null-padded past the end) succeeds exactly when the
length-`n` prefixes agree as lists. -/
def strncmpEq (s t : List Nat) (n : Nat) : Prop := s.take n = t.take n

instance (s t : List Nat) : Decidable (strcmpEq s t) :=
  inferInstanceAs (Decidable (s = t))

instance (s t : List Nat) (n : Nat) : Decidable (strncmpEq s t n) :=
  inferInstanceAs (Decidable (s.take n = t.take n))

/-! ### Wire literals (shared by both source files, lines 83-93) -/

def CONNECT : List Nat := strBytes "CONNECT"
def CONNECT_OK : List Nat := strBytes "CONNECT_OK"
def GET_VER : List Nat := strBytes "GET_VER"
def GET_DATA : List Nat := strBytes "GET_DATA"
def GET_FILE : List Nat := strBytes "GET_FILE"
def GET_COMMAND : List Nat := strBytes "GET_COMMAND"
def GET_B64 : List Nat := strBytes "GET_B64"
def DISCONNECT : List Nat := strBytes "DISCONNECT"
def VERSION : List Nat := strBytes "VERSION"
def B64 : List Nat := strBytes "B64:"
def DISCONNECT_OK : List Nat := strBytes "DISCONNECT_OK"

/-! ### Character classes

Variant 1 (`src/splpv1.c`) tests byte ranges inline; variant 2
(`src/unnamed/part_000`) indexes 128-entry lookup tables.  Both are
transcribed verbatim. -/

/-- WAITING_DATA character test of `src/splpv1.c` lines 202, 224, 247:
`(c >= 97 && c <= 122) || (c == '.') || (c >= 48 && c <= 59)`.
Note the upper bound 59: it admits the bytes 58 and 59, the characters
colon and semicolon. -/
def dataOk1 (c : Nat) : Bool :=
  decide ((97 ≤ c ∧ c ≤ 122) ∨ c = 46 ∨ (48 ≤ c ∧ c ≤ 59))

/-- `bool table[128]` of `src/unnamed/part_000` lines 95-107, transcribed
row by row (ten entries per source row). -/
def table : List Bool :=
  [false, false, false, false, false, false, false, false, false, false,
   false, false, false, false, false, false, false, false, false, false,
   false, false, false, false, false, false, false, false, false, false,
   false, false, false, false, false, false, false, false, false, false,
   false, false, false, false, false, false, true,  false, true,  true,
   true,  true,  true,  true,  true,  true,  true,  true,  false, false,
   false, false, false, false, false, false, false, false, false, false,
   false, false, false, false, false, false, false, false, false, false,
   false, false, false, false, false, false, false, false, false, false,
   false, false, false, false, false, false, false, true,  true,  true,
   true,  true,  true,  true,  true,  true,  true,  true,  true,  true,
   true,  true,  true,  true,  true,  true,  true,  true,  true,  true,
   true,  true,  true,  false, false, false, false, false]

/-- WAITING_DATA character test of `src/unnamed/part_000`: `*(table + c)`. -/
def dataOk2 (c : Nat) : Bool := table.getD c false

/-- Base64-alphabet test of `src/splpv1.c` lines 280-281 (and 288-290):
lowercase, uppercase, digits, `+` (43), `/` (47). -/
def b64Ok1 (c : Nat) : Bool :=
  decide ((97 ≤ c ∧ c ≤ 122) ∨ (65 ≤ c ∧ c ≤ 90) ∨ (48 ≤ c ∧ c ≤ 57) ∨
    c = 43 ∨ c = 47)

/-- Last-character test of `src/splpv1.c` lines 298-300: the base64
alphabet together with `=` (61). -/
def b64Eq1 (c : Nat) : Bool :=
  decide ((97 ≤ c ∧ c ≤ 122) ∨ (65 ≤ c ∧ c ≤ 90) ∨ (48 ≤ c ∧ c ≤ 57) ∨
    c = 61 ∨ c = 43 ∨ c = 47)

/-- `bool tableBase64[128]` of `src/unnamed/part_000` lines 109-121. -/
def tableBase64 : List Bool :=
  [false, false, false, false, false, false, false, false, false, false,
   false, false, false, false, false, false, false, false, false, false,
   false, false, false, false, false, false, false, false, false, false,
   false, false, false, false, false, false, false, false, false, false,
   false, false, false, true,  false, false, false, true,  true,  true,
   true,  true,  true,  true,  true,  true,  true,  true,  false, false,
   false, false, false, false, false, true,  true,  true,  true,  true,
   true,  true,  true,  true,  true,  true,  true,  true,  true,  true,
   true,  true,  true,  true,  true,  true,  true,  true,  true,  true,
   true,  false, false, false, false, false, false, true,  true,  true,
   true,  true,  true,  true,  true,  true,  true,  true,  true,  true,
   true,  true,  true,  true,  true,  true,  true,  true,  true,  true,
   true,  true,  true,  false, false, false, false, false]

/-- `bool tableBase64WithEquals[128]` of `src/unnamed/part_000` lines
123-135: `tableBase64` with entry 61 (`=`) also set. -/
def tableBase64WithEquals : List Bool :=
  [false, false, false, false, false, false, false, false, false, false,
   false, false, false, false, false, false, false, false, false, false,
   false, false, false, false, false, false, false, false, false, false,
   false, false, false, false, false, false, false, false, false, false,
   false, false, false, true,  false, false, false, true,  true,  true,
   true,  true,  true,  true,  true,  true,  true,  true,  false, false,
   false, true,  false, false, false, true,  true,  true,  true,  true,
   true,  true,  true,  true,  true,  true,  true,  true,  true,  true,
   true,  true,  true,  true,  true,  true,  true,  true,  true,  true,
   true,  false, false, false, false, false, false, true,  true,  true,
   true,  true,  true,  true,  true,  true,  true,  true,  true,  true,
   true,  true,  true,  true,  true,  true,  true,  true,  true,  true,
   true,  true,  true,  false, false, false, false, false]

/-- Base64 character test of `src/unnamed/part_000`: `*(tableBase64 + c)`. -/
def b64Ok2 (c : Nat) : Bool := tableBase64.getD c false

/-- `src/unnamed/part_000`: `*(tableBase64WithEquals + c)`. -/
def b64Eq2 (c : Nat) : Bool := tableBase64WithEquals.getD c false

/-! ### Token scanners

Each C loop walks the text with an index (or pointer) until a terminator.
Because the text model ends exactly at the terminating null, the loops are
embedded as structural recursion over the remaining suffix of the byte
list; where the code later uses the stop index `i`, the embedding recovers
it from the length of the returned suffix. -/

/-- WAITING_VER digit loop (`splpv1.c` lines 170-177, `part_000` lines
226-233): starting after the single space, every byte up to the null must
pass `(c >= 48 && c < 58) && !(c == 32)`; the source condition
`!(c >= 48 && c < 58) || c == 32` rejects, its negation continues.
Input: the suffix of the text from position 8. -/
def digitsRun : List Nat → Bool
  | [] => true
  | c :: r => if ¬(48 ≤ c ∧ c < 58) ∨ c = 32 then false else digitsRun r

/-- WAITING_DATA token loop (`splpv1.c` lines 200-207 and twins, `part_000`
lines 258-266 and twins): walk while the current byte is neither the space
32 nor the null, requiring each walked byte to pass `ok`.  Returns `none`
when a byte fails `ok`, otherwise `some u` where `u` is the suffix of the
input starting at the stopping byte (`u = []` means the loop stopped at the
null, i.e. at the end of the text). -/
def scanData (ok : Nat → Bool) : List Nat → Option (List Nat)
  | [] => some []
  | c :: r =>
    if c = 32 then some (c :: r)
    else if ok c then scanData ok r
    else none

/-- WAITING_B64_DATA loop (`splpv1.c` lines 278-286, `part_000` lines
346-354): `for (i = 5; text[i+2] != 0; i++)`.  On a null-free text the
condition `text[i+2] != 0` holds exactly when at least 3 bytes remain from
position `i`, so the loop walks while the remaining suffix has length at
least 3, requiring each walked byte to pass `ok`.  Returns `none` on a
failing byte, otherwise `some u` with `u` the remaining suffix at the stop
position (of length `min 2 n` for an input of length `n`). -/
def scanB64 (ok : Nat → Bool) : List Nat → Option (List Nat)
  | c :: c2 :: c3 :: r =>
    if ok c then scanB64 ok (c2 :: c3 :: r) else none
  | u => some u

/-! ### Phase bodies shared between the two variants -/

open Direction test_status State

/-- WAITING_VER text handling, identical in both sources (`splpv1.c` lines
164-185, `part_000` lines 220-241): `strncmp(text, VERSION, 7)`, then
`text[7]` must be the space, then the digit loop from position 8. -/
def verCase (s : List Nat) : test_status × State :=
  if strncmpEq s VERSION 7 then
    if ¬ (cAt s 7 = 32) then (MESSAGE_INVALID, INIT)
    else if digitsRun (s.drop 8) then (MESSAGE_VALID, CONNECTED)
    else (MESSAGE_INVALID, INIT)
  else (MESSAGE_INVALID, INIT)

/-- One WAITING_DATA command block (`splpv1.c` lines 193-214 and its two
twins; `part_000` lines 251-274 and twins): after `strncmp(text, cmd,
cmd.length)` succeeded, `text[cmd.length]` must be the space; the token
loop runs from `cmd.length + 1`; at the stop position the code rejects
when `text[i] == 0 || strcmp(text + i + 1, cmd) != 0`.  In the suffix
model the stop suffix `[]` is the null case, and for stop suffix
`32 :: u` the tail compared by `strcmp` is `u`. -/
def dataBlock (ok : Nat → Bool) (s cmd : List Nat) : test_status × State :=
  if ¬ (cAt s cmd.length = 32) then (MESSAGE_INVALID, INIT)
  else
    match scanData ok (s.drop (cmd.length + 1)) with
    | none => (MESSAGE_INVALID, INIT)
    | some [] => (MESSAGE_INVALID, INIT)
    | some (_ :: u) =>
      if ¬ strcmpEq u cmd then (MESSAGE_INVALID, INIT)
      else (MESSAGE_VALID, CONNECTED)

/-- WAITING_DATA dispatch, identical in both sources apart from the
character class: try the `GET_DATA`, `GET_FILE`, `GET_COMMAND` blocks in
order (prefix lengths 8, 8, 11); when no prefix matches, both sources
`break` out of the `switch` and fall through to the final
`return MESSAGE_VALID` with the state untouched (`splpv1.c` lines 261 and
336, `part_000` lines 326 and 398). -/
def waitingData (ok : Nat → Bool) (s : List Nat) : test_status × State :=
  if strncmpEq s GET_DATA 8 then dataBlock ok s GET_DATA
  else if strncmpEq s GET_FILE 8 then dataBlock ok s GET_FILE
  else if strncmpEq s GET_COMMAND 11 then dataBlock ok s GET_COMMAND
  else (MESSAGE_VALID, WAITING_DATA)

/-- The part of the WAITING_B64_DATA case after the scan loop
(`splpv1.c` lines 288-311, `part_000` lines 356-375), over the loop
result and the token length `n`.  The stop index is
`i = 5 + (n - u.length)`, so `text[i] = u.getD 0 0`,
`text[i+1] = u.getD 1 0` (0 standing for the null once past the end of
the text), and the final length test `(i - 3) % 4 != 0` reads
`(2 + (n - u.length)) % 4 != 0`.  The source tests, in order: if
`text[i]` fails the alphabet, both `text[i]` and `text[i+1]` must be `=`
(61); otherwise `text[i+1]` must pass the alphabet-with-equals class;
then the length test decides. -/
def b64Tail (ok eqok : Nat → Bool) (n : Nat) : Option (List Nat) → test_status × State
  | none => (MESSAGE_INVALID, INIT)
  | some u =>
    if ¬ (if ok (u.getD 0 0) = true then eqok (u.getD 1 0) = true
          else u.getD 0 0 = 61 ∧ u.getD 1 0 = 61) then
      (MESSAGE_INVALID, INIT)
    else if ¬ ((2 + (n - u.length)) % 4 = 0) then
      (MESSAGE_INVALID, INIT)
    else (MESSAGE_VALID, CONNECTED)

/-- WAITING_B64_DATA text handling (`splpv1.c` lines 268-311, `part_000`
lines 335-375), identical in both sources apart from the character
classes: the `B64:` prefix (`strncmp` with length 4), the space at
position 4, then the scan loop over the token `s.drop 5` followed by the
padding and length tests of `b64Tail`. -/
def b64Case (ok eqok : Nat → Bool) (s : List Nat) : test_status × State :=
  if ¬ strncmpEq s B64 4 then (MESSAGE_INVALID, INIT)
  else if ¬ (cAt s 4 = 32) then (MESSAGE_INVALID, INIT)
  else b64Tail ok eqok (s.drop 5).length (scanB64 ok (s.drop 5))

/-! ### The two validators

The C global `state` becomes the first argument and the second component
of the result: `validate_message` reads the state, may write it, and
returns a verdict.  In the `CONNECTED` case both sources leave the state
untouched on a mismatch (`return MESSAGE_INVALID;` with no reset), and in
the `INIT` case a mismatch leaves the state at `INIT`. -/

/-- `validate_message` of `src/splpv1.c` (lines 95-337). -/
def validate1 (st : State) (m : Message) : test_status × State :=
  match st with
  | INIT =>
    if ¬ strcmpEq m.text CONNECT then (MESSAGE_INVALID, INIT)
    else if ¬ (m.direction = A_TO_B) then (MESSAGE_INVALID, INIT)
    else (MESSAGE_VALID, CONNECTING)
  | CONNECTING =>
    if ¬ strcmpEq m.text CONNECT_OK then (MESSAGE_INVALID, INIT)
    else if ¬ (m.direction = B_TO_A) then (MESSAGE_INVALID, INIT)
    else (MESSAGE_VALID, CONNECTED)
  | CONNECTED =>
    if ¬ (m.direction = A_TO_B) then (MESSAGE_INVALID, INIT)
    else if strcmpEq m.text GET_VER then (MESSAGE_VALID, WAITING_VER)
    else if strcmpEq m.text GET_DATA ∨ strcmpEq m.text GET_FILE ∨
        strcmpEq m.text GET_COMMAND then (MESSAGE_VALID, WAITING_DATA)
    else if strcmpEq m.text GET_B64 then (MESSAGE_VALID, WAITING_B64_DATA)
    else if strcmpEq m.text DISCONNECT then (MESSAGE_VALID, DISCONNECTING)
    else (MESSAGE_INVALID, CONNECTED)
  | WAITING_VER =>
    verCase m.text
  | WAITING_DATA =>
    if ¬ (m.direction = B_TO_A) then (MESSAGE_INVALID, INIT)
    else waitingData dataOk1 m.text
  | WAITING_B64_DATA =>
    if ¬ (m.direction = B_TO_A) then (MESSAGE_INVALID, INIT)
    else b64Case b64Ok1 b64Eq1 m.text
  | DISCONNECTING =>
    if ¬ strcmpEq m.text DISCONNECT_OK then (MESSAGE_INVALID, INIT)
    else if ¬ (m.direction = B_TO_A) then (MESSAGE_INVALID, INIT)
    else (MESSAGE_VALID, INIT)

/-- `validate_message` of `src/unnamed/part_000` (lines 138-399).  It
differs from `validate1` in the `CONNECTED` dispatch order, in checking
the direction while in `WAITING_VER` (lines 214-218, absent from
`splpv1.c`), and in using the lookup-table character classes. -/
def validate2 (st : State) (m : Message) : test_status × State :=
  match st with
  | INIT =>
    if ¬ strcmpEq m.text CONNECT then (MESSAGE_INVALID, INIT)
    else if ¬ (m.direction = A_TO_B) then (MESSAGE_INVALID, INIT)
    else (MESSAGE_VALID, CONNECTING)
  | CONNECTING =>
    if ¬ strcmpEq m.text CONNECT_OK then (MESSAGE_INVALID, INIT)
    else if ¬ (m.direction = B_TO_A) then (MESSAGE_INVALID, INIT)
    else (MESSAGE_VALID, CONNECTED)
  | CONNECTED =>
    if ¬ (m.direction = A_TO_B) then (MESSAGE_INVALID, INIT)
    else if strcmpEq m.text GET_DATA ∨ strcmpEq m.text GET_FILE ∨
        strcmpEq m.text GET_COMMAND then (MESSAGE_VALID, WAITING_DATA)
    else if strcmpEq m.text DISCONNECT then (MESSAGE_VALID, DISCONNECTING)
    else if strcmpEq m.text GET_B64 then (MESSAGE_VALID, WAITING_B64_DATA)
    else if strcmpEq m.text GET_VER then (MESSAGE_VALID, WAITING_VER)
    else (MESSAGE_INVALID, CONNECTED)
  | WAITING_VER =>
    if ¬ (m.direction = B_TO_A) then (MESSAGE_INVALID, INIT)
    else verCase m.text
  | WAITING_DATA =>
    if ¬ (m.direction = B_TO_A) then (MESSAGE_INVALID, INIT)
    else waitingData dataOk2 m.text
  | WAITING_B64_DATA =>
    if ¬ (m.direction = B_TO_A) then (MESSAGE_INVALID, INIT)
    else b64Case b64Ok2 b64Eq2 m.text
  | DISCONNECTING =>
    if ¬ strcmpEq m.text DISCONNECT_OK then (MESSAGE_INVALID, INIT)
    else if ¬ (m.direction = B_TO_A) then (MESSAGE_INVALID, INIT)
    else (MESSAGE_VALID, INIT)

/-- Run a validator over a message sequence, threading the state and
collecting the verdicts. -/
def run (v : State → Message → test_status × State) (st : State) :
    List Message → List test_status × State
  | [] => ([], st)
  | m :: ms =>
    let r := v st m
    let rest := run v r.2 ms
    (r.1 :: rest.1, rest.2)

end SPLP

namespace SPLP

/-! ### Instrumentation for the WAITING_B64_DATA memory accesses

The `for (i = 5; text[i+2] != 0; i++)` loop of both sources reads the
byte at `i + 2` in its condition.  To reason about which buffer positions
the loop touches, this instrumented copy runs over a raw byte function
`mem : Nat -> Nat` (the buffer content, with the terminating null at
position `s.length` under `memOf`) and records every index it reads, in
order.  `fuel` bounds the iteration count (the concrete theorems use it
with slack, and the run stops well before exhausting it). -/

/-- The buffer holding a C string: the bytes of `s`, the terminating null
at position `s.length`, and (in this instance of the arbitrary bytes
beyond the object) zeroes after it. -/
def memOf (s : List Nat) (i : Nat) : Nat := s.getD i 0

/-- Instrumented transcription of the `splpv1.c` lines 278-286 loop
(`part_000` lines 346-354 is the same loop with `tableBase64`): each
iteration first reads index `i + 2` for the condition, then, when the
condition holds, reads index `i` for the character-class test.  Returns
the accessed indices in order and `some i` for a normal exit at index
`i`, `none` when a character failed the class test or fuel ran out. -/
def scanB64Reads (mem : Nat → Nat) : Nat → Nat → List Nat → List Nat × Option Nat
  | 0, _, acc => (acc, none)
  | fuel + 1, i, acc =>
    if mem (i + 2) = 0 then (acc ++ [i + 2], some i)
    else if b64Ok1 (mem i) then scanB64Reads mem fuel (i + 1) (acc ++ [i + 2, i])
    else (acc ++ [i + 2, i], none)

/-! ### The acceptance condition of claim C8, stated in its own words -/

/-- The base64 alphabet as worded by claim C8: `A`-`Z`, `a`-`z`, `0`-`9`,
`+` (43), `/` (47). -/
def specIsB64 (c : Nat) : Bool :=
  decide ((65 ≤ c ∧ c ≤ 90) ∨ (97 ≤ c ∧ c ≤ 122) ∨ (48 ≤ c ∧ c ≤ 57) ∨
    c = 43 ∨ c = 47)

/-- Transcription of the acceptance condition of claim C8 (not of the
source): every token character is in the base64 alphabet except for zero,
one, or two trailing `=` confined to the last two positions, `=` in the
second-to-last position forces `=` in the last, and the total token
length is a positive multiple of 4.  Positions are read with `getD`
(default 0); the bound `i < t.length` in the third clause is implied by
`i + 2 < t.length` and is kept for decidability. -/
def specB64Token (t : List Nat) : Prop :=
  0 < t.length ∧ t.length % 4 = 0 ∧
  (∀ i < t.length, i + 2 < t.length → specIsB64 (t.getD i 0) = true) ∧
  (specIsB64 (t.getD (t.length - 2) 0) = true ∨ t.getD (t.length - 2) 0 = 61) ∧
  (specIsB64 (t.getD (t.length - 1) 0) = true ∨ t.getD (t.length - 1) 0 = 61) ∧
  (t.getD (t.length - 2) 0 = 61 → t.getD (t.length - 1) 0 = 61)

instance (t : List Nat) : Decidable (specB64Token t) :=
  inferInstanceAs (Decidable (_ ∧ _))

open Direction test_status State

/-! ### Helper lemmas -/

/-- Reading a dropped list with `getD` is reading the original at an
offset (both sides default to 0 past the end). -/
theorem getD_drop_eq (s : List Nat) (k j : Nat) :
    (s.drop k).getD j 0 = s.getD (k + j) 0 := by
  induction s generalizing k with
  | nil => simp
  | cons c r ih =>
    cases k with
    | zero => simp
    | succ k => simp [Nat.succ_add, ih k]

/-- `List.all` over a `take`, read positionally. -/
theorem all_take_iff (p : Nat → Bool) (t : List Nat) (m : Nat) :
    (t.take m).all p = true ↔
      ∀ i, i < m → i < t.length → p (t.getD i 0) = true := by
  induction t generalizing m with
  | nil => simp
  | cons c r ih =>
    cases m with
    | zero => simp
    | succ m =>
      simp only [List.take_succ_cons, List.all_cons, Bool.and_eq_true, ih,
        List.length_cons]
      constructor
      · rintro ⟨hc, hr⟩ i hi hl
        cases i with
        | zero => simpa using hc
        | succ i => exact hr i (by omega) (by omega)
      · intro h
        refine ⟨by simpa using h 0 (by omega) (by omega), fun i hi hl => ?_⟩
        simpa using h (i + 1) (by omega) (by omega)

/-- Closed form of the WAITING_B64_DATA scan loop: it checks `ok` on all
characters except the last two and stops on the suffix formed by those
last two characters (the whole token when it is shorter than two). -/
theorem scanB64_eq (ok : Nat → Bool) (t : List Nat) :
    scanB64 ok t =
      if (t.take (t.length - 2)).all ok = true then
        some (t.drop (t.length - 2))
      else none := by
  induction t with
  | nil => simp [scanB64]
  | cons c r ih =>
    cases r with
    | nil => simp [scanB64]
    | cons c2 r2 =>
      cases r2 with
      | nil => simp [scanB64]
      | cons c3 r3 =>
        have hl : (c :: c2 :: c3 :: r3).length - 2 = (c2 :: c3 :: r3).length - 2 + 1 := by
          simp
        rw [scanB64, hl, List.take_succ_cons, List.drop_succ_cons, List.all_cons]
        by_cases h : ok c = true
        · rw [if_pos h, ih, h]
          simp
        · rw [if_neg h]
          simp [h]

/-- The inline base64 class of `splpv1.c` is the claimed alphabet. -/
theorem b64Ok1_eq_spec (c : Nat) : b64Ok1 c = specIsB64 c := by
  unfold b64Ok1 specIsB64
  rw [decide_eq_decide]
  tauto

/-- The inline with-equals class of `splpv1.c` is the claimed alphabet
together with `=`. -/
theorem b64Eq1_eq_spec (c : Nat) :
    b64Eq1 c = (specIsB64 c || decide (c = 61)) := by
  by_cases h61 : c = 61
  · subst h61
    decide
  · have h3 : decide (c = 61) = false := by simp [h61]
    rw [h3, Bool.or_false]
    unfold b64Eq1 specIsB64
    rw [decide_eq_decide]
    constructor
    · intro hp
      tauto
    · intro hp
      tauto

/-- The `tableBase64` lookup of `part_000` is the claimed alphabet (for
bytes at least 128 the table read is out of bounds in C; the model reads
the default `false`, and the range class is also false there). -/
theorem b64Ok2_eq_spec (c : Nat) : b64Ok2 c = specIsB64 c := by
  by_cases h : c < 128
  · have hb : ∀ x, x < 128 → b64Ok2 x = specIsB64 x := by decide
    exact hb c h
  · have h1 : b64Ok2 c = false := by
      unfold b64Ok2
      apply List.getD_eq_default
      have hlen : tableBase64.length = 128 := by decide
      omega
    have h2 : specIsB64 c = false := by
      unfold specIsB64
      simp only [decide_eq_false_iff_not]
      omega
    rw [h1, h2]

/-- The `tableBase64WithEquals` lookup of `part_000` is the claimed
alphabet together with `=`. -/
theorem b64Eq2_eq_spec (c : Nat) :
    b64Eq2 c = (specIsB64 c || decide (c = 61)) := by
  by_cases h : c < 128
  · have hb : ∀ x, x < 128 → b64Eq2 x = (specIsB64 x || decide (x = 61)) := by
      decide
    exact hb c h
  · have h1 : b64Eq2 c = false := by
      unfold b64Eq2
      apply List.getD_eq_default
      have hlen : tableBase64WithEquals.length = 128 := by decide
      omega
    have h2 : specIsB64 c = false := by
      unfold specIsB64
      simp only [decide_eq_false_iff_not]
      omega
    have h3 : decide (c = 61) = false := by
      simp only [decide_eq_false_iff_not]
      omega
    rw [h1, h2, h3]
    rfl

/-- Outside the two divergent bytes 58 (`:`) and 59 (`;`), the inline
WAITING_DATA class of `splpv1.c` and the `table` lookup of `part_000`
agree. -/
theorem dataOk_eq_of_ne (c : Nat) (h58 : c ≠ 58) (h59 : c ≠ 59) :
    dataOk1 c = dataOk2 c := by
  by_cases h : c < 128
  · have hb : ∀ x, x < 128 → x ≠ 58 → x ≠ 59 → dataOk1 x = dataOk2 x := by
      decide
    exact hb c h h58 h59
  · have h1 : dataOk1 c = false := by
      unfold dataOk1
      simp only [decide_eq_false_iff_not]
      omega
    have h2 : dataOk2 c = false := by
      unfold dataOk2
      apply List.getD_eq_default
      have hlen : table.length = 128 := by decide
      omega
    rw [h1, h2]

/-- Acceptance of the WAITING_B64_DATA case, for any pair of character
classes that agree with the claimed ones: the case returns
(MESSAGE_VALID, CONNECTED) on `B64: ` ++ token exactly when the token
satisfies the claimed condition. -/
theorem b64Case_accepts_iff (ok eqok : Nat → Bool)
    (hok : ∀ c, ok c = specIsB64 c)
    (heq : ∀ c, eqok c = (specIsB64 c || decide (c = 61)))
    (t : List Nat) :
    b64Case ok eqok (strBytes "B64: " ++ t) = (MESSAGE_VALID, CONNECTED) ↔
      specB64Token t := by
  have e1 : strncmpEq (strBytes "B64: " ++ t) B64 4 := rfl
  have e2 : cAt (strBytes "B64: " ++ t) 4 = 32 := rfl
  have e3 : (strBytes "B64: " ++ t).drop 5 = t := rfl
  unfold b64Case
  rw [if_neg (not_not_intro e1), if_neg (not_not_intro e2), e3, scanB64_eq]
  by_cases hn : 2 ≤ t.length
  · by_cases hall : (t.take (t.length - 2)).all ok = true
    · rw [if_pos hall]
      simp only [b64Tail]
      have hulen : (t.drop (t.length - 2)).length = 2 := by
        rw [List.length_drop]
        omega
      have hu0 : (t.drop (t.length - 2)).getD 0 0 = t.getD (t.length - 2) 0 :=
        getD_drop_eq t (t.length - 2) 0
      have hu1 : (t.drop (t.length - 2)).getD 1 0 = t.getD (t.length - 1) 0 := by
        rw [getD_drop_eq]
        congr 1
        omega
      have hlen : 2 + (t.length - (t.drop (t.length - 2)).length) = t.length := by
        rw [hulen]
        omega
      rw [hu0, hu1, hlen, hok, heq]
      constructor
      · intro h
        by_cases hp : (if specIsB64 (t.getD (t.length - 2) 0) = true then
            (specIsB64 (t.getD (t.length - 1) 0) ||
              decide (t.getD (t.length - 1) 0 = 61)) = true
            else t.getD (t.length - 2) 0 = 61 ∧ t.getD (t.length - 1) 0 = 61)
        · rw [if_neg (not_not_intro hp)] at h
          by_cases hm : t.length % 4 = 0
          · refine ⟨by omega, hm, ?_, ?_, ?_, ?_⟩
            · intro i hi hii
              have hbit := (all_take_iff ok t (t.length - 2)).mp hall i (by omega) hi
              rw [hok] at hbit
              exact hbit
            · by_cases ha : specIsB64 (t.getD (t.length - 2) 0) = true
              · exact Or.inl ha
              · rw [if_neg ha] at hp
                exact Or.inr hp.1
            · by_cases ha : specIsB64 (t.getD (t.length - 2) 0) = true
              · rw [if_pos ha] at hp
                have hp2 : specIsB64 (t.getD (t.length - 1) 0) = true ∨
                    t.getD (t.length - 1) 0 = 61 := by simpa using hp
                exact hp2
              · rw [if_neg ha] at hp
                exact Or.inr hp.2
            · intro ha61
              by_cases ha : specIsB64 (t.getD (t.length - 2) 0) = true
              · rw [ha61] at ha
                exact absurd ha (by decide)
              · rw [if_neg ha] at hp
                exact hp.2
          · rw [if_pos hm] at h
            exact absurd h (by decide)
        · rw [if_pos hp] at h
          exact absurd h (by decide)
      · intro hspec
        obtain ⟨hpos, hmod, hbody, hA, hB, hImp⟩ := hspec
        have hp : (if specIsB64 (t.getD (t.length - 2) 0) = true then
            (specIsB64 (t.getD (t.length - 1) 0) ||
              decide (t.getD (t.length - 1) 0 = 61)) = true
            else t.getD (t.length - 2) 0 = 61 ∧ t.getD (t.length - 1) 0 = 61) := by
          by_cases ha : specIsB64 (t.getD (t.length - 2) 0) = true
          · rw [if_pos ha]
            rcases hB with hb1 | hb1
            · rw [hb1]
              rfl
            · rw [hb1]
              decide
          · rw [if_neg ha]
            rcases hA with ha1 | ha1
            · exact absurd ha1 ha
            · exact ⟨ha1, hImp ha1⟩
        rw [if_neg (not_not_intro hp), if_neg (not_not_intro hmod)]
    · rw [if_neg hall]
      simp only [b64Tail]
      constructor
      · intro h
        exact absurd h (by decide)
      · intro hspec
        exfalso
        obtain ⟨hpos, hmod, hbody, -⟩ := hspec
        have hnall : ¬ ∀ i, i < t.length - 2 → i < t.length →
            ok (t.getD i 0) = true := by
          intro hforall
          exact hall ((all_take_iff ok t (t.length - 2)).mpr hforall)
        push_neg at hnall
        obtain ⟨i, hi, hil, hbad⟩ := hnall
        have hgood := hbody i hil (by omega)
        rw [hok] at hbad
        exact hbad hgood
  · have hall : (t.take (t.length - 2)).all ok = true := by
      have h0 : t.length - 2 = 0 := by omega
      rw [h0]
      rfl
    have hu : t.drop (t.length - 2) = t := by
      have h0 : t.length - 2 = 0 := by omega
      rw [h0, List.drop_zero]
    rw [if_pos hall, hu]
    simp only [b64Tail]
    have hlen2 : 2 + (t.length - t.length) = 2 := by omega
    rw [hlen2]
    constructor
    · intro h
      by_cases hp : (if ok (t.getD 0 0) = true then eqok (t.getD 1 0) = true
          else t.getD 0 0 = 61 ∧ t.getD 1 0 = 61)
      · rw [if_neg (not_not_intro hp), if_pos (by decide)] at h
        exact absurd h (by decide)
      · rw [if_pos hp] at h
        exact absurd h (by decide)
    · intro hspec
      exfalso
      obtain ⟨hpos, hmod, -⟩ := hspec
      omega

/-- Claim C1.  The claim states that in every phase other than INIT an
invalid message yields MESSAGE_INVALID and resets the phase to INIT, in
particular in WAITING_DATA for a B-to-A message whose text matches none
of the three command prefixes.  The code does the opposite there: when no
`strncmp` prefix matches, both sources `break` out of the `switch` and
fall through to the trailing `return MESSAGE_VALID` (below the
`TODO: Implement me` comment in `splpv1.c`), returning MESSAGE_VALID and
leaving the phase at WAITING_DATA — contradicting the sources' own banner
`IN CASE OF INVALID MESSAGE THE STATE SHOULD BE RESET TO 1 (INIT)`. -/
theorem waitingData_unmatched_returns_valid :
    validate1 WAITING_DATA ⟨strBytes "HELLO", B_TO_A⟩ =
      (MESSAGE_VALID, WAITING_DATA) ∧
    validate2 WAITING_DATA ⟨strBytes "HELLO", B_TO_A⟩ =
      (MESSAGE_VALID, WAITING_DATA) := by
  decide

/-- Claim C2.  The claim states that the WAITING_B64_DATA scan never
indexes past the text's terminating null, even when the token after
`B64: ` has fewer than two characters.  It does: on the text `B64: `
(token empty, terminating null at index 5) the very first loop-condition
read of `for (i = 5; text[i+2] != 0; i++)` touches index 7, two bytes
past the terminator — an out-of-bounds read of a 6-byte buffer.  The
instrumented loop records exactly the access list `[7]` before exiting. -/
theorem b64_scan_reads_past_null :
    scanB64Reads (memOf (strBytes "B64: ")) 8 5 [] = ([7], some 5) ∧
    (strBytes "B64: ").length = 5 := by
  decide

/-- Claim C3.  The claim states that after GET_DATA was issued, only a
GET_DATA echo is accepted in WAITING_DATA.  The code keeps no record of
the issued command: after the handshake and a GET_DATA request, the echo
`GET_FILE a GET_FILE` of a command that was never issued is accepted by
both validators (MESSAGE_VALID, phase CONNECTED) — contradicting the
sources' own state-table comment `CMD - command sent by the client in
previous message`. -/
theorem cross_command_echo_accepted :
    run validate1 INIT
      [⟨strBytes "CONNECT", A_TO_B⟩, ⟨strBytes "CONNECT_OK", B_TO_A⟩,
       ⟨strBytes "GET_DATA", A_TO_B⟩, ⟨strBytes "GET_FILE a GET_FILE", B_TO_A⟩] =
      ([MESSAGE_VALID, MESSAGE_VALID, MESSAGE_VALID, MESSAGE_VALID], CONNECTED) ∧
    run validate2 INIT
      [⟨strBytes "CONNECT", A_TO_B⟩, ⟨strBytes "CONNECT_OK", B_TO_A⟩,
       ⟨strBytes "GET_DATA", A_TO_B⟩, ⟨strBytes "GET_FILE a GET_FILE", B_TO_A⟩] =
      ([MESSAGE_VALID, MESSAGE_VALID, MESSAGE_VALID, MESSAGE_VALID], CONNECTED) := by
  decide

/-- Claim C4.  The claim states that a WAITING_DATA token containing `:`
(byte 58) or `;` (byte 59) is rejected by `validate_message`.
`src/unnamed/part_000` agrees (its `table` has entries 58 and 59 clear),
but `src/splpv1.c` writes the digit range as `c >= 48 && c <= 59`, an
inclusive bound that admits both characters, contradicting its own
state-table comment (allowed characters: small latin letters, digits and
`.`): on the echo `GET_DATA : GET_DATA` the two variants diverge. -/
theorem data_token_colon_divergence :
    validate1 WAITING_DATA ⟨strBytes "GET_DATA : GET_DATA", B_TO_A⟩ =
      (MESSAGE_VALID, CONNECTED) ∧
    validate2 WAITING_DATA ⟨strBytes "GET_DATA : GET_DATA", B_TO_A⟩ =
      (MESSAGE_INVALID, INIT) ∧
    validate1 WAITING_DATA ⟨strBytes "GET_DATA ; GET_DATA", B_TO_A⟩ =
      (MESSAGE_VALID, CONNECTED) ∧
    validate2 WAITING_DATA ⟨strBytes "GET_DATA ; GET_DATA", B_TO_A⟩ =
      (MESSAGE_INVALID, INIT) := by
  decide

/-- Claim C5 counterexample.  The claim states that the WAITING_DATA token
must be non-empty and that `GET_DATA  GET_DATA` (two spaces, zero token
characters) returns MESSAGE_INVALID with reset to INIT.  Both validators
accept it: the token loop exits immediately on the second space with zero
iterations, and the suffix comparison then succeeds. -/
theorem empty_data_token_accepted :
    validate1 WAITING_DATA ⟨strBytes "GET_DATA  GET_DATA", B_TO_A⟩ =
      (MESSAGE_VALID, CONNECTED) ∧
    validate2 WAITING_DATA ⟨strBytes "GET_DATA  GET_DATA", B_TO_A⟩ =
      (MESSAGE_VALID, CONNECTED) := by
  decide

/-- Claim C5, amended.  In WAITING_DATA the token between the two command
literals may be empty: for each of the three commands, the message
`<CMD>` + space + space + `<CMD>` returns MESSAGE_VALID and moves the
phase to CONNECTED, in both source variants. -/
theorem empty_data_token_valid_all_commands :
    validate1 WAITING_DATA ⟨strBytes "GET_DATA  GET_DATA", B_TO_A⟩ =
      (MESSAGE_VALID, CONNECTED) ∧
    validate2 WAITING_DATA ⟨strBytes "GET_DATA  GET_DATA", B_TO_A⟩ =
      (MESSAGE_VALID, CONNECTED) ∧
    validate1 WAITING_DATA ⟨strBytes "GET_FILE  GET_FILE", B_TO_A⟩ =
      (MESSAGE_VALID, CONNECTED) ∧
    validate2 WAITING_DATA ⟨strBytes "GET_FILE  GET_FILE", B_TO_A⟩ =
      (MESSAGE_VALID, CONNECTED) ∧
    validate1 WAITING_DATA ⟨strBytes "GET_COMMAND  GET_COMMAND", B_TO_A⟩ =
      (MESSAGE_VALID, CONNECTED) ∧
    validate2 WAITING_DATA ⟨strBytes "GET_COMMAND  GET_COMMAND", B_TO_A⟩ =
      (MESSAGE_VALID, CONNECTED) := by
  decide

/-- Claim C6 counterexample.  The claim states that the exact text
`VERSION ` (the literal, one space, immediate end of text) returns
MESSAGE_INVALID in WAITING_VER.  Both validators accept it: the digit
loop runs zero iterations and neither source rejects an empty suffix. -/
theorem version_empty_suffix_accepted :
    validate1 WAITING_VER ⟨strBytes "VERSION ", B_TO_A⟩ =
      (MESSAGE_VALID, CONNECTED) ∧
    validate2 WAITING_VER ⟨strBytes "VERSION ", B_TO_A⟩ =
      (MESSAGE_VALID, CONNECTED) := by
  decide

/-- Claim C6, amended.  In WAITING_VER the digit suffix after `VERSION `
may be empty: `VERSION ` returns MESSAGE_VALID (phase CONNECTED), as do
`VERSION 0` and `VERSION 123`, while `VERSION`, `VERSION -1` and
`VERSION 1 2` return MESSAGE_INVALID (phase INIT), in both source
variants (messages sent B-to-A). -/
theorem version_suffix_boundary :
    (validate1 WAITING_VER ⟨strBytes "VERSION ", B_TO_A⟩ =
      (MESSAGE_VALID, CONNECTED) ∧
     validate2 WAITING_VER ⟨strBytes "VERSION ", B_TO_A⟩ =
      (MESSAGE_VALID, CONNECTED)) ∧
    (validate1 WAITING_VER ⟨strBytes "VERSION 0", B_TO_A⟩ =
      (MESSAGE_VALID, CONNECTED) ∧
     validate2 WAITING_VER ⟨strBytes "VERSION 0", B_TO_A⟩ =
      (MESSAGE_VALID, CONNECTED)) ∧
    (validate1 WAITING_VER ⟨strBytes "VERSION 123", B_TO_A⟩ =
      (MESSAGE_VALID, CONNECTED) ∧
     validate2 WAITING_VER ⟨strBytes "VERSION 123", B_TO_A⟩ =
      (MESSAGE_VALID, CONNECTED)) ∧
    (validate1 WAITING_VER ⟨strBytes "VERSION", B_TO_A⟩ =
      (MESSAGE_INVALID, INIT) ∧
     validate2 WAITING_VER ⟨strBytes "VERSION", B_TO_A⟩ =
      (MESSAGE_INVALID, INIT)) ∧
    (validate1 WAITING_VER ⟨strBytes "VERSION -1", B_TO_A⟩ =
      (MESSAGE_INVALID, INIT) ∧
     validate2 WAITING_VER ⟨strBytes "VERSION -1", B_TO_A⟩ =
      (MESSAGE_INVALID, INIT)) ∧
    (validate1 WAITING_VER ⟨strBytes "VERSION 1 2", B_TO_A⟩ =
      (MESSAGE_INVALID, INIT) ∧
     validate2 WAITING_VER ⟨strBytes "VERSION 1 2", B_TO_A⟩ =
      (MESSAGE_INVALID, INIT)) := by
  decide

/-- Claim C7.  The claim states that direction is checked in every phase,
so that a well-formed `VERSION 3` sent A-to-B while in WAITING_VER is
rejected with reset to INIT.  `src/unnamed/part_000` does exactly that,
but `src/splpv1.c` has no direction test in its WAITING_VER case and
accepts the message — contradicting its own state-table row
`A<-B  VERSION ver`. -/
theorem waiting_ver_direction_divergence :
    validate1 WAITING_VER ⟨strBytes "VERSION 3", A_TO_B⟩ =
      (MESSAGE_VALID, CONNECTED) ∧
    validate2 WAITING_VER ⟨strBytes "VERSION 3", A_TO_B⟩ =
      (MESSAGE_INVALID, INIT) := by
  decide

/-- Claim C9.  From INIT, the sequence CONNECT (A-to-B), CONNECT_OK
(B-to-A), GET_VER (A-to-B), `VERSION 3` (B-to-A) yields MESSAGE_VALID on
each of the four calls and ends in phase CONNECTED, in both source
variants. -/
theorem round_trip_connect_version :
    run validate1 INIT
      [⟨strBytes "CONNECT", A_TO_B⟩, ⟨strBytes "CONNECT_OK", B_TO_A⟩,
       ⟨strBytes "GET_VER", A_TO_B⟩, ⟨strBytes "VERSION 3", B_TO_A⟩] =
      ([MESSAGE_VALID, MESSAGE_VALID, MESSAGE_VALID, MESSAGE_VALID], CONNECTED) ∧
    run validate2 INIT
      [⟨strBytes "CONNECT", A_TO_B⟩, ⟨strBytes "CONNECT_OK", B_TO_A⟩,
       ⟨strBytes "GET_VER", A_TO_B⟩, ⟨strBytes "VERSION 3", B_TO_A⟩] =
      ([MESSAGE_VALID, MESSAGE_VALID, MESSAGE_VALID, MESSAGE_VALID], CONNECTED) := by
  decide

/-- Claim C8.  In WAITING_B64_DATA, a B-to-A message `B64: ` ++ token is
accepted (MESSAGE_VALID, phase CONNECTED) by both validators exactly when
the token satisfies the claimed condition `specB64Token`: every character
in the base64 alphabet except zero, one, or two trailing `=` confined to
the last two positions, `=` in the second-to-last position forcing `=` in
the last, and the total length a positive multiple of 4. -/
theorem b64_accept_iff_spec (t : List Nat) :
    (validate1 WAITING_B64_DATA ⟨strBytes "B64: " ++ t, B_TO_A⟩ =
      (MESSAGE_VALID, CONNECTED) ↔ specB64Token t) ∧
    (validate2 WAITING_B64_DATA ⟨strBytes "B64: " ++ t, B_TO_A⟩ =
      (MESSAGE_VALID, CONNECTED) ↔ specB64Token t) := by
  constructor
  · have hv : validate1 WAITING_B64_DATA ⟨strBytes "B64: " ++ t, B_TO_A⟩ =
        b64Case b64Ok1 b64Eq1 (strBytes "B64: " ++ t) := by
      simp [validate1]
    rw [hv]
    exact b64Case_accepts_iff b64Ok1 b64Eq1 b64Ok1_eq_spec b64Eq1_eq_spec t
  · have hv : validate2 WAITING_B64_DATA ⟨strBytes "B64: " ++ t, B_TO_A⟩ =
        b64Case b64Ok2 b64Eq2 (strBytes "B64: " ++ t) := by
      simp [validate2]
    rw [hv]
    exact b64Case_accepts_iff b64Ok2 b64Eq2 b64Ok2_eq_spec b64Eq2_eq_spec t

/-- The boundary examples named by claim C8, evaluated directly: `QQ==`
and `SGVsbG8=` are accepted, `QQ=` is rejected, by both validators. -/
theorem b64_boundary_examples :
    validate1 WAITING_B64_DATA ⟨strBytes "B64: QQ==", B_TO_A⟩ =
      (MESSAGE_VALID, CONNECTED) ∧
    validate2 WAITING_B64_DATA ⟨strBytes "B64: QQ==", B_TO_A⟩ =
      (MESSAGE_VALID, CONNECTED) ∧
    validate1 WAITING_B64_DATA ⟨strBytes "B64: SGVsbG8=", B_TO_A⟩ =
      (MESSAGE_VALID, CONNECTED) ∧
    validate2 WAITING_B64_DATA ⟨strBytes "B64: SGVsbG8=", B_TO_A⟩ =
      (MESSAGE_VALID, CONNECTED) ∧
    validate1 WAITING_B64_DATA ⟨strBytes "B64: QQ=", B_TO_A⟩ =
      (MESSAGE_INVALID, INIT) ∧
    validate2 WAITING_B64_DATA ⟨strBytes "B64: QQ=", B_TO_A⟩ =
      (MESSAGE_INVALID, INIT) := by
  decide

/-- The WAITING_DATA token loop only inspects characters of its input
suffix, so two character classes agreeing on that suffix give equal
scans. -/
theorem scanData_congr (ok1 ok2 : Nat → Bool) (u : List Nat)
    (h : ∀ c, c ∈ u → ok1 c = ok2 c) :
    scanData ok1 u = scanData ok2 u := by
  induction u with
  | nil => rfl
  | cons c r ih =>
    unfold scanData
    rw [h c (List.mem_cons_self c r),
      ih (fun x hx => h x (List.mem_cons_of_mem c hx))]

/-- A WAITING_DATA command block only inspects characters of the text. -/
theorem dataBlock_congr (ok1 ok2 : Nat → Bool) (s cmd : List Nat)
    (h : ∀ c, c ∈ s → ok1 c = ok2 c) :
    dataBlock ok1 s cmd = dataBlock ok2 s cmd := by
  unfold dataBlock
  rw [scanData_congr ok1 ok2 (s.drop (cmd.length + 1))
    (fun c hc => h c (List.drop_subset _ _ hc))]

/-- The WAITING_DATA dispatch only inspects characters of the text. -/
theorem waitingData_congr (ok1 ok2 : Nat → Bool) (s : List Nat)
    (h : ∀ c, c ∈ s → ok1 c = ok2 c) :
    waitingData ok1 s = waitingData ok2 s := by
  unfold waitingData
  rw [dataBlock_congr ok1 ok2 s GET_DATA h, dataBlock_congr ok1 ok2 s GET_FILE h,
    dataBlock_congr ok1 ok2 s GET_COMMAND h]

/-- Claim C10, amended.  The two `validate_message` variants agree on
every phase and message except on the two divergences exhibited by the
counterexamples: in WAITING_VER they may differ when the direction is
A-to-B (`splpv1.c` omits the direction check), and in WAITING_DATA they
may differ when the text contains `:` (58) or `;` (59) (`splpv1.c`
accepts both in tokens).  Outside those two situations the verdict and
the next phase coincide. -/
theorem variants_agree_outside_divergences (st : State) (m : Message)
    (hver : st = WAITING_VER → m.direction = B_TO_A)
    (hdat : st = WAITING_DATA → ∀ c ∈ m.text, c ≠ 58 ∧ c ≠ 59) :
    validate1 st m = validate2 st m := by
  obtain ⟨s, d⟩ := m
  cases st with
  | INIT => rfl
  | CONNECTING => rfl
  | DISCONNECTING => rfl
  | CONNECTED =>
    by_cases hd : d = A_TO_B
    · subst hd
      by_cases h1 : s = GET_VER
      · subst h1
        decide
      by_cases h2 : s = GET_DATA
      · subst h2
        decide
      by_cases h3 : s = GET_FILE
      · subst h3
        decide
      by_cases h4 : s = GET_COMMAND
      · subst h4
        decide
      by_cases h5 : s = GET_B64
      · subst h5
        decide
      by_cases h6 : s = DISCONNECT
      · subst h6
        decide
      simp [validate1, validate2, strcmpEq, h1, h2, h3, h4, h5, h6]
    · cases d with
      | A_TO_B => exact absurd rfl hd
      | B_TO_A => simp [validate1, validate2]
  | WAITING_VER =>
    have hd := hver rfl
    subst hd
    simp [validate1, validate2]
  | WAITING_DATA =>
    have hs := hdat rfl
    by_cases hd : d = B_TO_A
    · subst hd
      simp only [validate1, validate2]
      rw [waitingData_congr dataOk1 dataOk2 s
        (fun c hc => dataOk_eq_of_ne c (hs c hc).1 (hs c hc).2)]
    · cases d with
      | B_TO_A => exact absurd rfl hd
      | A_TO_B => simp [validate1, validate2]
  | WAITING_B64_DATA =>
    have hok : b64Ok1 = b64Ok2 :=
      funext (fun c => (b64Ok1_eq_spec c).trans (b64Ok2_eq_spec c).symm)
    have heq2 : b64Eq1 = b64Eq2 :=
      funext (fun c => (b64Eq1_eq_spec c).trans (b64Eq2_eq_spec c).symm)
    simp only [validate1, validate2]
    rw [hok, heq2]

/-- Witness for the amended claim C10 at a concrete input: both
hypotheses hold vacuously in phase INIT, and the two validators agree on
a CONNECT message there. -/
theorem variants_agree_outside_divergences_witness :
    validate1 INIT ⟨strBytes "CONNECT", A_TO_B⟩ =
      validate2 INIT ⟨strBytes "CONNECT", A_TO_B⟩ :=
  variants_agree_outside_divergences INIT ⟨strBytes "CONNECT", A_TO_B⟩
    (by decide) (by decide)

/-- Claim C10 counterexample.  The two `validate_message` variants are not
extensionally equal: in WAITING_VER, on the well-formed reply `VERSION 3`
sent A-to-B, `src/splpv1.c` (no direction check) and
`src/unnamed/part_000` (direction checked) return different verdicts and
different next phases. -/
theorem variants_differ_on_version_direction :
    validate1 WAITING_VER ⟨strBytes "VERSION 3", A_TO_B⟩ ≠
    validate2 WAITING_VER ⟨strBytes "VERSION 3", A_TO_B⟩ := by
  decide

end SPLP
